import Mathlib

/-!
Shallow embedding of the multi-collection retrieval-and-synthesis engine of the
repository (files `vector_store_v2.py`, `rag_pipeline_v2.py`, `embedding_config.py`,
`data_loader_v2.py`).

Modelling conventions:
* Similarity scores and float-valued options (temperature, thresholds) are
  modelled as rationals (`ℚ`).
* Python dicts with string keys and string values are modelled as association
  lists `List (String × String)`; `dict.get(k, d)` is lookup with default, and
  `dict[k] = v` / `dict.update` keep Python insertion-order semantics
  (existing key updated in place, new key appended).
* The external Qdrant client (the backing store) is modelled by `QdrantState`
  together with the `qdrant_*` operations.  `str(uuid.uuid4())` — a point id
  that is fresh, never colliding with any id already in the store — is
  modelled by the counter `QdrantState.next_id`.  Searching or upserting into
  a collection that does not exist makes the real client raise
  (HTTP 404 / UnexpectedResponse); this is modelled as `Except.error
  QErr.collectionNotFound`.
* The external embedding provider is a function `String → List ℚ`, the
  external generation provider (`self.llm.invoke`) is a function
  `String → ℚ → Nat → Except String String` (prompt, temperature, max_tokens;
  an exception is `Except.error`).  The scoring function of the backing store
  (cosine similarity) is kept abstract as a parameter `metric`.
* Wall-clock timing fields (`retrieval_time`, `synthesis_time`, timestamps)
  are not modelled; they carry no information the claims depend on.
-/

namespace RagV2

/-- Scores (cosine similarities and thresholds) are modelled as rationals. -/
abbrev Score := ℚ

/-- Python `str.strip()`: remove leading and trailing whitespace. -/
def python_strip (s : String) : String :=
  String.mk (((s.data.dropWhile Char.isWhitespace).reverse.dropWhile Char.isWhitespace).reverse)

/-- Stable descending insertion step by a rational key: the element is
placed after every element with a strictly greater key and after every
earlier element with an equal key. -/
def insert_desc (key : α → ℚ) (a : α) : List α → List α
  | [] => [a]
  | b :: l => if key a < key b then b :: insert_desc key a l else a :: b :: l

/-- Python `list.sort(key=..., reverse=True)`: the stable sort by
non-increasing key.  The stable descending sort of a list is unique as a
function, so this structural insertion sort is extensionally the same
operation as CPython's Timsort with `reverse=True`. -/
def py_sort_desc_by (key : α → ℚ) (l : List α) : List α :=
  l.foldr (insert_desc key) []

/-- Python dict set: `d[k] = v`.  An existing key is updated in place, a new
key is appended (insertion-order semantics of Python dicts). -/
def dict_set (l : List (String × String)) (k v : String) : List (String × String) :=
  if (l.lookup k).isSome then
    l.map (fun p => if p.1 = k then (k, v) else p)
  else
    l ++ [(k, v)]

/-- Python dict merge `{**base-entries, **extra}` realised as repeated
`dict_set`: entries of `extra` override entries of `base` with the same key. -/
def dict_merge (base extra : List (String × String)) : List (String × String) :=
  List.foldl (fun acc kv => dict_set acc kv.1 kv.2) base extra

/-! ## Model of the external Qdrant client (backing store) -/

/-- Payload stored with a point, mirroring `add_documents`:
the explicit keys `id`, `text`, `metadata`, plus the flattened metadata
entries that `payload.update(metadata)` merges into the top level of the
dict (kept separately in `flat`).  Modelling assumption: metadata keys do
not collide with the reserved keys `id`, `text`, `metadata`. -/
structure Payload where
  id : String
  text : String
  metadata : List (String × String)
  flat : List (String × String)
  deriving DecidableEq

/-- One stored point of a collection. `point_id` models `str(uuid.uuid4())`. -/
structure Point where
  point_id : Nat
  vector : List Score
  payload : Payload
  deriving DecidableEq

/-- One collection of the backing store: its configured vector dimension and
its points in insertion order. -/
structure Collection where
  dim : Nat
  points : List Point
  deriving DecidableEq

/-- Errors of the store layer: `valueError` models a Python `ValueError`
raised by `MultiCollectionVectorStore` itself; `collectionNotFound` models
the exception the Qdrant client raises when a collection does not exist. -/
inductive QErr where
  | valueError (msg : String)
  | collectionNotFound
  deriving DecidableEq

/-- State of the external Qdrant server: named collections, plus the
fresh-id counter modelling `uuid.uuid4()` (every id ever handed out is
`< next_id`, and new ids start at `next_id`). -/
structure QdrantState where
  collections : List (String × Collection)
  next_id : Nat
  deriving DecidableEq

/-- Model of `client.get_collections()`: the names of existing collections. -/
def qdrant_get_collections (st : QdrantState) : List String :=
  st.collections.map (·.1)

/-- Model of `client.create_collection`: adds an empty collection. (The
callers in `vector_store_v2.py` only call it after checking absence.) -/
def qdrant_create_collection (st : QdrantState) (name : String) (dim : Nat) : QdrantState :=
  { st with collections := st.collections ++ [(name, { dim := dim, points := [] })] }

/-- Model of `client.delete_collection`: removes the collection; raises if it
does not exist. -/
def qdrant_delete_collection (st : QdrantState) (name : String) : Except QErr QdrantState :=
  if (st.collections.lookup name).isSome then
    .ok { st with collections := st.collections.filter (fun c => !(c.1 = name)) }
  else
    .error .collectionNotFound

/-- Upsert of a single point: a point with the same point id is overwritten,
otherwise the point is appended. -/
def qdrant_upsert_point (pts : List Point) (p : Point) : List Point :=
  if pts.any (fun q => q.point_id == p.point_id) then
    pts.map (fun q => if q.point_id = p.point_id then p else q)
  else
    pts ++ [p]

/-- In-place update of the named collection: the new points are folded in
one by one (`qdrant_upsert_point`). -/
def upsert_into (cols : List (String × Collection)) (name : String) (pts : List Point) :
    List (String × Collection) :=
  cols.map (fun c =>
    if c.1 = name then
      (c.1, { c.2 with points := List.foldl qdrant_upsert_point c.2.points pts })
    else c)

/-- Model of `client.upsert`: upserts the given points into the named
collection; raises if the collection does not exist.  The batching loop of
`add_documents` (batches of `batch_size` sequential `client.upsert` calls)
is observably equivalent to one upsert of all points, because a missing
collection makes already the first batch fail. -/
def qdrant_upsert (st : QdrantState) (name : String) (new_points : List Point) :
    Except QErr QdrantState :=
  match st.collections.lookup name with
  | none => .error .collectionNotFound
  | some _ => .ok { st with collections := upsert_into st.collections name new_points }

/-- Lookup of a payload field by key, as Qdrant metadata filters see the
payload: the reserved keys first, then the flattened metadata entries. -/
def payload_get (p : Payload) (k : String) : Option String :=
  if k = "id" then some p.id
  else if k = "text" then some p.text
  else p.flat.lookup k

/-- One search hit of the backing store. -/
structure Hit where
  point_id : Nat
  score : Score
  payload : Payload
  deriving DecidableEq

/-- Model of `client.search`: raises if the collection does not exist,
otherwise scores every (filter-matching) point with the abstract similarity
`metric`, orders by descending score and returns the first `limit` hits. -/
def qdrant_search (metric : List Score → List Score → Score) (st : QdrantState)
    (name : String) (query_vector : List Score) (limit : Nat)
    (filt : Option (List (String × String))) : Except QErr (List Hit) :=
  match st.collections.lookup name with
  | none => .error .collectionNotFound
  | some col =>
    let cands := match filt with
      | none => col.points
      | some conds => col.points.filter (fun p =>
          conds.all (fun kv => payload_get p.payload kv.1 == some kv.2))
    let hits : List Hit := cands.map (fun p =>
      { point_id := p.point_id, score := metric query_vector p.vector, payload := p.payload })
    .ok ((py_sort_desc_by (fun h => h.score) hits).take limit)

/-- Number of points of the named collection (0 if it does not exist);
`points_count` of `get_collection_info`. -/
def point_count (st : QdrantState) (name : String) : Nat :=
  ((st.collections.lookup name).map (fun c => c.points.length)).getD 0

/-! ## vector_store_v2.py — MultiCollectionVectorStore -/

/-- Configuration of `MultiCollectionVectorStore`: the embedding dimension and
the collection name stem (`collection_prefix` in the source). -/
structure MultiCollectionVectorStore where
  embedding_dim : Nat
  prefixStr : String
  deriving DecidableEq

/-- The dict `self.collections` mapping collection type to collection name. -/
def vs_collections (vs : MultiCollectionVectorStore) : List (String × String) :=
  [("text", vs.prefixStr ++ "_text"),
   ("audio", vs.prefixStr ++ "_audio"),
   ("event", vs.prefixStr ++ "_event")]

/-- The `ValueError` raised for a collection type outside
`{text, audio, event}`. -/
def unknown_type_error (collection_type : String) : QErr :=
  .valueError ("Unknown collection type: " ++ collection_type)

/-- `MultiCollectionVectorStore.create_collection`.  Mutating operations
return the resulting store state next to the `Except` outcome; on an error
the state is returned unchanged (the Python exception is raised before any
write reaches the backing store). -/
def create_collection (vs : MultiCollectionVectorStore) (st : QdrantState)
    (collection_type : String) (recreate : Bool) : Except QErr Unit × QdrantState :=
  match (vs_collections vs).lookup collection_type with
  | none => (.error (unknown_type_error collection_type), st)
  | some name =>
    if (qdrant_get_collections st).contains name then
      if recreate then
        match qdrant_delete_collection st name with
        | .error e => (.error e, st)
        | .ok st1 => (.ok (), qdrant_create_collection st1 name vs.embedding_dim)
      else
        (.ok (), st)
    else
      (.ok (), qdrant_create_collection st name vs.embedding_dim)

/-- One document as handed to `add_documents` (output shape of
`prepare_documents_for_vectordb`). -/
structure Document where
  id : String
  text : String
  metadata : List (String × String)
  deriving DecidableEq

/-- Point construction loop of `add_documents`: one fresh point id
(`uuid.uuid4()`, modelled by the counter value `n`, `n+1`, ...) per document;
the payload carries `id`, `text` and the metadata extended by
`collection_type` — both as the `metadata` entry and flattened into the top
level of the payload dict (`payload.update(metadata)`). -/
def build_points (n : Nat) (collection_type : String) :
    List (Document × List Score) → List Point
  | [] => []
  | (doc, emb) :: rest =>
    let md := dict_set doc.metadata "collection_type" collection_type
    { point_id := n, vector := emb,
      payload := { id := doc.id, text := doc.text, metadata := md, flat := md } }
      :: build_points (n + 1) collection_type rest

/-- `MultiCollectionVectorStore.add_documents`.  The `batch_size` argument
only controls write granularity and does not change the resulting state
(see `qdrant_upsert`). -/
def add_documents (vs : MultiCollectionVectorStore) (st : QdrantState)
    (collection_type : String) (documents : List Document)
    (embeddings : List (List Score)) (_batch_size : Nat) :
    Except QErr Unit × QdrantState :=
  match (vs_collections vs).lookup collection_type with
  | none => (.error (unknown_type_error collection_type), st)
  | some name =>
    if documents.length ≠ embeddings.length then
      (.error (.valueError "Number of documents must match number of embeddings"), st)
    else
      match qdrant_upsert
          { st with next_id := st.next_id
              + (build_points st.next_id collection_type (documents.zip embeddings)).length }
          name (build_points st.next_id collection_type (documents.zip embeddings)) with
      | .error e => (.error e, st)
      | .ok st2 => (.ok (), st2)

/-- One formatted search result of `search_collection`: the result dict
`{'id': hit.id, 'score': hit.score, 'collection_type': ..., **hit.payload}`.
Spreading `**hit.payload` overwrites the `id` key with the payload id (the
record id), so `id` here is the payload id, not the point id.  `flat` holds
the flattened metadata keys of the payload (see `Payload`). -/
structure ResultChunk where
  id : String
  score : Score
  collection_type : String
  text : String
  metadata : List (String × String)
  flat : List (String × String)
  deriving DecidableEq

/-- Read of a flattened top-level key of a result chunk with default:
`chunk.get(k, d)` for keys that originate from the flattened metadata. -/
def get_flat (c : ResultChunk) (k d : String) : String :=
  (c.flat.lookup k).getD d

/-- Filter normalisation of `search_collection`: mirrors `if filter_dict:`
and `if conditions:` — `None` and the empty dict both mean no filter. -/
def normalize_filter (filter_dict : Option (List (String × String))) :
    Option (List (String × String)) :=
  match filter_dict with
  | none => none
  | some conds => if conds.isEmpty then none else some conds

/-- The result dict `search_collection` builds per hit:
`{'id': hit.id, 'score': hit.score, 'collection_type': ..., **hit.payload}`
(the payload spread overwrites the `id` key with the record id). -/
def chunk_of_hit (collection_type : String) (h : Hit) : ResultChunk :=
  { id := h.payload.id, score := h.score, collection_type := collection_type,
    text := h.payload.text, metadata := h.payload.metadata, flat := h.payload.flat }

/-- `MultiCollectionVectorStore.search_collection` (read-only, so only the
`Except` outcome is returned). -/
def search_collection (metric : List Score → List Score → Score)
    (vs : MultiCollectionVectorStore) (st : QdrantState) (collection_type : String)
    (query_vector : List Score) (limit : Nat)
    (filter_dict : Option (List (String × String))) : Except QErr (List ResultChunk) :=
  match (vs_collections vs).lookup collection_type with
  | none => .error (unknown_type_error collection_type)
  | some name =>
    match qdrant_search metric st name query_vector limit (normalize_filter filter_dict) with
    | .error e => .error e
    | .ok hits => .ok (hits.map (chunk_of_hit collection_type))

/-- Per-query limits and threshold (`SearchConfig` dataclass). -/
structure SearchConfig where
  text_limit : Nat := 3
  audio_limit : Nat := 1
  event_limit : Nat := 1
  similarity_threshold : Score := 0
  deriving DecidableEq

/-- `SearchConfig.total_limit`. -/
def SearchConfig.total_limit (c : SearchConfig) : Nat :=
  c.text_limit + c.audio_limit + c.event_limit

/-- The per-type result dict of `multi_collection_search`: a key is present
(`some`) exactly when the corresponding limit was positive. -/
structure MultiResults where
  text : Option (List ResultChunk) := none
  audio : Option (List ResultChunk) := none
  event : Option (List ResultChunk) := none
  deriving DecidableEq

/-- One `if limit > 0: results[type] = search_collection(...)` block of
`multi_collection_search`. -/
def search_if (metric : List Score → List Score → Score)
    (vs : MultiCollectionVectorStore) (st : QdrantState) (collection_type : String)
    (query_vector : List Score) (limit : Nat)
    (filter_dict : Option (List (String × String))) :
    Except QErr (Option (List ResultChunk)) :=
  if limit > 0 then
    (search_collection metric vs st collection_type query_vector limit filter_dict).map some
  else
    .ok none

/-- `MultiCollectionVectorStore.multi_collection_search`: text, audio and
event searched in this order; the first raised exception propagates. -/
def multi_collection_search (metric : List Score → List Score → Score)
    (vs : MultiCollectionVectorStore) (st : QdrantState) (query_vector : List Score)
    (search_config : SearchConfig) (filter_dict : Option (List (String × String))) :
    Except QErr MultiResults :=
  match search_if metric vs st "text" query_vector search_config.text_limit filter_dict with
  | .error e => .error e
  | .ok t =>
    match search_if metric vs st "audio" query_vector search_config.audio_limit filter_dict with
    | .error e => .error e
    | .ok a =>
      match search_if metric vs st "event" query_vector search_config.event_limit filter_dict with
      | .error e => .error e
      | .ok ev => .ok { text := t, audio := a, event := ev }

/-- `MultiCollectionVectorStore.combined_search`: concatenates the per-type
results in dict insertion order (text, audio, event), sorts by descending
score with Python's stable `list.sort`, and applies the similarity threshold
only when it is positive (`if search_config.similarity_threshold > 0:`). -/
def combined_search (metric : List Score → List Score → Score)
    (vs : MultiCollectionVectorStore) (st : QdrantState) (query_vector : List Score)
    (search_config : SearchConfig) (filter_dict : Option (List (String × String))) :
    Except QErr (List ResultChunk) :=
  match multi_collection_search metric vs st query_vector search_config filter_dict with
  | .error e => .error e
  | .ok m =>
    if search_config.similarity_threshold > 0 then
      .ok ((py_sort_desc_by (fun r => r.score)
        (m.text.getD [] ++ m.audio.getD [] ++ m.event.getD [])).filter
          (fun r => decide (search_config.similarity_threshold ≤ r.score)))
    else
      .ok (py_sort_desc_by (fun r => r.score)
        (m.text.getD [] ++ m.audio.getD [] ++ m.event.getD []))

/-- `MultiCollectionVectorStore.delete_collection`. -/
def delete_collection (vs : MultiCollectionVectorStore) (st : QdrantState)
    (collection_type : String) : Except QErr Unit × QdrantState :=
  match (vs_collections vs).lookup collection_type with
  | none => (.error (unknown_type_error collection_type), st)
  | some name =>
    match qdrant_delete_collection st name with
    | .error e => (.error e, st)
    | .ok st1 => (.ok (), st1)

/-! ## rag_pipeline_v2.py — MultiCollectionRAGPipeline -/

/-- `RAGConfig` dataclass (defaults of the source). -/
structure RAGConfig where
  text_limit : Nat := 3
  audio_limit : Nat := 1
  event_limit : Nat := 1
  similarity_threshold : Score := 3/10
  temperature : Score := 7/10
  max_tokens : Nat := 1000
  include_sources : Bool := true
  stream : Bool := false
  deriving DecidableEq

/-- The external embedding provider: `self.embeddings.embed_query`. -/
abbrev Embedder := String → List Score

/-- The external generation provider: `self.llm.invoke(prompt, temperature,
max_tokens)`; `Except.error` models a raised exception, `Except.ok` the
response content (`response.content`). -/
abbrev LLM := String → Score → Nat → Except String String

/-- `MultiCollectionRAGPipeline.retrieve`: embeds the question once and fans
out via `multi_collection_search` with the limits and threshold copied from
the `RAGConfig` (no filter).  The wall-clock `retrieval_time` is not
modelled. -/
def retrieve (metric : List Score → List Score → Score) (embed : Embedder)
    (vs : MultiCollectionVectorStore) (st : QdrantState) (question : String)
    (config : RAGConfig) : Except QErr MultiResults :=
  multi_collection_search metric vs st (embed question)
    { text_limit := config.text_limit, audio_limit := config.audio_limit,
      event_limit := config.event_limit,
      similarity_threshold := config.similarity_threshold } none

/-- Section lines of `format_context` for the text results:
`f"{i}. {text[:500]}..."` and `f"   來源: {source}\n"`. -/
def format_context_text (l : List ResultChunk) : List String :=
  if l.isEmpty then [] else
    "【文本參考 Text References】" ::
      ((l.enumFrom 1).map (fun ic =>
        [toString ic.1 ++ ". " ++ ic.2.text.take 500 ++ "...",
         "   來源: " ++ ((ic.2.metadata.lookup "source").getD "Unknown") ++ "\n"])).flatten

/-- Section lines of `format_context` for the audio results. -/
def format_context_audio (l : List ResultChunk) : List String :=
  if l.isEmpty then [] else
    "【音頻參考 Audio References】" ::
      ((l.enumFrom 1).map (fun ic =>
        [toString ic.1 ++ ". [" ++ get_flat ic.2 "speaker" "聖嚴法師" ++ " - "
           ++ get_flat ic.2 "audio_title" "Unknown Audio" ++ "]",
         "   " ++ ic.2.text.take 400 ++ "...",
         ""])).flatten

/-- Section lines of `format_context` for the event results. -/
def format_context_event (l : List ResultChunk) : List String :=
  if l.isEmpty then [] else
    "【活動參考 Event References】" ::
      ((l.enumFrom 1).map (fun ic =>
        [toString ic.1 ++ ". " ++ get_flat ic.2 "title" "Unknown Event",
         "   " ++ ic.2.text.take 300 ++ "...",
         ""])).flatten

/-- `MultiCollectionRAGPipeline.format_context`: one labeled block per
non-empty, present content type, joined with newlines.  A missing key
(`'text' in results` false) and an empty list both omit the block. -/
def format_context (r : MultiResults) : String :=
  String.intercalate "\n"
    (format_context_text (r.text.getD []) ++ format_context_audio (r.audio.getD [])
      ++ format_context_event (r.event.getD []))

/-- One source entry of the API response, as built by `format_sources`. -/
structure SourceEntry where
  type : String
  content : String
  score : Score
  metadata : List (String × String)
  deriving DecidableEq

/-- The source dict `format_sources` builds for a text chunk. -/
def text_source (c : ResultChunk) : SourceEntry :=
  { type := "text", content := c.text, score := c.score,
    metadata := dict_set c.metadata "source_type" "text" }

/-- The source dict `format_sources` builds for an audio chunk. -/
def audio_source (c : ResultChunk) : SourceEntry :=
  { type := "audio", content := c.text, score := c.score,
    metadata := dict_merge
      [("source_type", "audio"),
       ("audio_title", get_flat c "audio_title" ""),
       ("audio_url", get_flat c "audio_url" ""),
       ("speaker", get_flat c "speaker" "聖嚴法師"),
       ("section", get_flat c "section" ""),
       ("timestamp_start", get_flat c "timestamp_start" ""),
       ("timestamp_end", get_flat c "timestamp_end" "")]
      c.metadata }

/-- The source dict `format_sources` builds for an event chunk. -/
def event_source (c : ResultChunk) : SourceEntry :=
  { type := "event", content := c.text, score := c.score,
    metadata := dict_merge
      [("source_type", "event"),
       ("event_title", get_flat c "title" ""),
       ("event_date", get_flat c "date" ""),
       ("event_location", get_flat c "location" "")]
      c.metadata }

/-- `MultiCollectionRAGPipeline.format_sources`: projects the per-type
results into annotated source dicts (text, then audio, then event), then
sorts by descending score with Python's stable `list.sort`. -/
def format_sources (r : MultiResults) : List SourceEntry :=
  py_sort_desc_by (fun s => s.score)
    ((r.text.getD []).map text_source ++ (r.audio.getD []).map audio_source
      ++ (r.event.getD []).map event_source)

/-- The prompt built (identically) by `synthesize` and `query_stream`. -/
def build_prompt (question context : String) : String :=
  "你是一位專業的佛教導師助手，請根據以下參考資料回答問題。\n\n"
    ++ "重要：請始終使用繁體中文回答，無論問題使用什麼語言。\n\n"
    ++ "問題：" ++ question ++ "\n\n"
    ++ "參考資料：\n" ++ context ++ "\n\n"
    ++ "請提供準確、有幫助的回答。如果參考資料中包含音頻或活動信息，請適當引用。\n"
    ++ "如果參考資料不足以回答問題，請誠實說明。\n\n"
    ++ "回答："

/-- The fixed string `synthesize` returns when the generation call raises. -/
def generation_error_answer : String := "抱歉，生成回答時出現錯誤。"

/-- Result of `synthesize`: the answer text and the number of generation
calls made (always exactly one `self.llm.invoke`, whether it succeeds or
raises).  The wall-clock `synthesis_time` is not modelled. -/
structure SynthResult where
  answer : String
  gen_calls : Nat
  deriving DecidableEq

/-- `MultiCollectionRAGPipeline.synthesize`: builds the prompt, invokes the
generation provider once; a raised exception is caught, logged, and replaced
by the fixed apology string as the answer. -/
def synthesize (llm : LLM) (question context : String) (config : RAGConfig) : SynthResult :=
  match llm (build_prompt question context) config.temperature config.max_tokens with
  | .ok content => { answer := content, gen_calls := 1 }
  | .error _ => { answer := generation_error_answer, gen_calls := 1 }

/-- The response dict assembled by `query` (timing fields not modelled;
`gen_calls` instruments the number of generation-provider invocations). -/
structure QueryResponse where
  answer : String
  chunks_text : Nat
  chunks_audio : Nat
  chunks_event : Nat
  sources : Option (List SourceEntry)
  gen_calls : Nat
  deriving DecidableEq

/-- `MultiCollectionRAGPipeline.query`: retrieve, format context, synthesize,
assemble the response; `sources` added only when `config.include_sources`.
There is no branch on empty retrieval — synthesis runs unconditionally. -/
def query (metric : List Score → List Score → Score) (embed : Embedder) (llm : LLM)
    (vs : MultiCollectionVectorStore) (st : QdrantState) (question : String)
    (config : RAGConfig) : Except QErr QueryResponse :=
  match retrieve metric embed vs st question config with
  | .error e => .error e
  | .ok results =>
    let context := format_context results
    let s := synthesize llm question context config
    .ok { answer := s.answer,
          chunks_text := (results.text.getD []).length,
          chunks_audio := (results.audio.getD []).length,
          chunks_event := (results.event.getD []).length,
          sources := if config.include_sources then some (format_sources results) else none,
          gen_calls := s.gen_calls }

/-- Events yielded by `query_stream`. -/
inductive StreamEvent where
  | start
  | sources (sources : List SourceEntry) (chunks_text chunks_audio chunks_event : Nat)
  | answer (content : String)
  | error (message : String)
  | complete
  deriving DecidableEq

/-- The `answer[i:i+chunk_size]` slicing loop of `query_stream` with
`chunk_size = 50`, on the character list of the answer. -/
def chunk_chars : List Char → List (List Char)
  | [] => []
  | c :: cs => (c :: cs).take 50 :: chunk_chars ((c :: cs).drop 50)
termination_by l => l.length
decreasing_by simp [List.length_drop]; omega

/-- The answer fragments `query_stream` yields for a generated answer. -/
def chunk_answer (s : String) : List String :=
  (chunk_chars s.data).map (fun cs => String.mk cs)

/-- `MultiCollectionRAGPipeline.query_stream`, as the finite list of events
the async generator yields: `start`, then `sources`, then the answer
fragments (or a single `error` event when the generation call raises), and
in every case a final `complete` event.  An exception raised by retrieval
itself propagates out of the generator (`Except.error`). -/
def query_stream (metric : List Score → List Score → Score) (embed : Embedder) (llm : LLM)
    (vs : MultiCollectionVectorStore) (st : QdrantState) (question : String)
    (config : RAGConfig) : Except QErr (List StreamEvent) :=
  match retrieve metric embed vs st question config with
  | .error e => .error e
  | .ok results =>
    let src := StreamEvent.sources (format_sources results)
      (results.text.getD []).length (results.audio.getD []).length
      (results.event.getD []).length
    let context := format_context results
    let middle := match llm (build_prompt question context) config.temperature config.max_tokens with
      | .ok answer => (chunk_answer answer).map StreamEvent.answer
      | .error e => [StreamEvent.error e]
    .ok ([StreamEvent.start, src] ++ middle ++ [StreamEvent.complete])

/-! ## embedding_config.py — EmbeddingConfigManager -/

/-- The currently configured embedding identity (`settings.embedding_provider`
and `settings.embedding_model`), as captured by `_get_current_config`. -/
structure CurrentConfig where
  provider : String
  model : String
  deriving DecidableEq

/-- The persisted JSON profile as `load_saved_config` reads it: each key may
be absent (`dict.get` returns `None`). -/
structure SavedConfig where
  provider : Option String := none
  model : Option String := none
  dimension : Option Nat := none
  timestamp : Option Nat := none
  deriving DecidableEq

/-- `EmbeddingConfigManager.save_config`: persists the current provider and
model together with the dimension and a timestamp. -/
def save_config (cur : CurrentConfig) (dimension : Nat) (now : Nat) : SavedConfig :=
  { provider := some cur.provider, model := some cur.model,
    dimension := some dimension, timestamp := some now }

/-- `EmbeddingConfigManager.has_model_changed` (the drift check): true when no
profile was persisted (or it could not be read), or when the persisted
provider or model differs from the current one.  The persisted dimension and
timestamp are not consulted. -/
def has_model_changed (saved : Option SavedConfig) (cur : CurrentConfig) : Bool :=
  match saved with
  | none => true
  | some s =>
    decide (s.provider ≠ some cur.provider) || decide (s.model ≠ some cur.model)

/-- `EmbeddingConfigManager.should_recreate_collections`. -/
def should_recreate_collections (saved : Option SavedConfig) (cur : CurrentConfig) : Bool :=
  has_model_changed saved cur

/-! ## data_loader_v2.py — MultiTypeDataLoader -/

/-- One raw chunk as read from a JSONL file: every key may be absent. -/
structure RawChunk where
  id : Option String := none
  header : Option String := none
  content : Option String := none
  metadata : Option (List (String × String)) := none
  deriving DecidableEq

/-- `MultiTypeDataLoader.prepare_documents_for_vectordb`: every chunk yields
one document — header and content concatenated with a newline and stripped
(`python_strip`), the metadata extended with
`chunk_type` and (when absent) `source_type`, missing ids defaulting to the
empty string.  There is no emptiness check and no skipping. -/
def prepare_documents_for_vectordb (chunks : List RawChunk) (chunk_type : String) :
    List Document :=
  chunks.map (fun c =>
    let text_content := python_strip ((c.header.getD "") ++ "\n" ++ (c.content.getD ""))
    let md0 := dict_set (c.metadata.getD []) "chunk_type" chunk_type
    let md := if (md0.lookup "source_type").isSome then md0
              else md0 ++ [("source_type", chunk_type)]
    { id := c.id.getD "", text := text_content, metadata := md })

/-! ## Predicates used by the claim statements -/

/-- Position of a content type in the fixed enumeration order of the source
(text before audio before event, both in `multi_collection_search` and in
`format_sources`). -/
def type_rank (s : String) : Nat :=
  if s = "text" then 0 else if s = "audio" then 1 else if s = "event" then 2 else 3

/-- A source list is globally sorted by non-increasing score, and entries with
equal scores appear in content-type enumeration order. -/
def source_order (l : List SourceEntry) : Prop :=
  l.Pairwise (fun a b =>
    b.score ≤ a.score ∧ (a.score = b.score → type_rank a.type ≤ type_rank b.type))

/-- The analogous ordering for the combined result chunks of
`combined_search`. -/
def chunk_order (l : List ResultChunk) : Prop :=
  l.Pairwise (fun a b =>
    b.score ≤ a.score ∧
      (a.score = b.score → type_rank a.collection_type ≤ type_rank b.collection_type))

/-- Every result chunk of the list scores at least `t`. -/
def all_scores_ge (t : Score) (l : List ResultChunk) : Prop :=
  ∀ r ∈ l, t ≤ r.score

/-! ## Concrete fixtures for the witnesses and counterexamples -/

/-- Trivial similarity: every vector pair scores 0. -/
def metric0 : List Score → List Score → Score := fun _ _ => 0

/-- Constant similarity 1, a concrete instance of the abstract metric. -/
def metric1 : List Score → List Score → Score := fun _ _ => 1

/-- Embedding provider returning the one-dimensional vector `[1]`. -/
def embed1 : Embedder := fun _ => [1]

/-- Generation provider that always answers `"hello"`. -/
def llm_hello : LLM := fun _ _ _ => .ok "hello"

/-- Generation provider that always raises `"boom"`. -/
def llm_boom : LLM := fun _ _ _ => .error "boom"

/-- Generation provider that always raises `"rate limited"`. -/
def llm_rate : LLM := fun _ _ _ => .error "rate limited"

/-- Store configuration with the default collection name stem and
one-dimensional embeddings. -/
def vsD : MultiCollectionVectorStore := { embedding_dim := 1, prefixStr := "ddm_rag" }

/-- Backing store with the three collections present and empty. -/
def st3 : QdrantState :=
  { collections := [("ddm_rag_text", { dim := 1, points := [] }),
                    ("ddm_rag_audio", { dim := 1, points := [] }),
                    ("ddm_rag_event", { dim := 1, points := [] })],
    next_id := 0 }

/-- A stored text point; under `metric0` it scores 0, below every positive
threshold. -/
def ptC2 : Point :=
  { point_id := 0, vector := [1],
    payload := { id := "d1", text := "t", metadata := [("collection_type", "text")],
                 flat := [("collection_type", "text")] } }

/-- Backing store holding exactly the low-scoring text point `ptC2`. -/
def stC2 : QdrantState :=
  { collections := [("ddm_rag_text", { dim := 1, points := [ptC2] }),
                    ("ddm_rag_audio", { dim := 1, points := [] }),
                    ("ddm_rag_event", { dim := 1, points := [] })],
    next_id := 1 }

/-- A concrete document for the idempotency claims. -/
def doc1 : Document := { id := "doc1", text := "hello", metadata := [] }

/-- Backing store with only the (empty) text collection. -/
def stT : QdrantState :=
  { collections := [("ddm_rag_text", { dim := 1, points := [] })], next_id := 0 }

/-- A text chunk and an audio chunk with identical scores, to exercise the
tie-break between content types. -/
def rC6 : MultiResults :=
  { text := some [{ id := "t1", score := 1, collection_type := "text",
                    text := "tx", metadata := [], flat := [] }],
    audio := some [{ id := "a1", score := 1, collection_type := "audio",
                     text := "au", metadata := [], flat := [] }],
    event := none }

/-! ## Helper lemmas -/

/-- Every invocation of `synthesize` makes exactly one generation call,
whether the provider succeeds or raises. -/
theorem synthesize_gen_calls (llm : LLM) (question context : String) (config : RAGConfig) :
    (synthesize llm question context config).gen_calls = 1 := by
  unfold synthesize
  split <;> rfl

/-- A collection type outside `{text, audio, event}` is not a key of
`self.collections`. -/
theorem vs_collections_lookup_none (vs : MultiCollectionVectorStore) (ct : String)
    (h1 : ct ≠ "text") (h2 : ct ≠ "audio") (h3 : ct ≠ "event") :
    (vs_collections vs).lookup ct = none := by
  have e1 : (ct == "text") = false := beq_eq_false_iff_ne.mpr h1
  have e2 : (ct == "audio") = false := beq_eq_false_iff_ne.mpr h2
  have e3 : (ct == "event") = false := beq_eq_false_iff_ne.mpr h3
  simp [vs_collections, List.lookup, e1, e2, e3]

/-! ## C4 — drift detection (confirmed) -/

/-- C4: `has_model_changed` is true exactly when no profile is persisted or
the persisted provider or model differs; it is false straight after
`save_config` with the same provider and model; it flips to true when only
the model name changes; and the persisted dimension plays no role. -/
theorem c4_has_drifted_iff (cur : CurrentConfig) (s : SavedConfig) (d d' t : Nat) (m : String) :
    has_model_changed none cur = true
    ∧ (has_model_changed (some s) cur = true ↔
        (s.provider ≠ some cur.provider ∨ s.model ≠ some cur.model))
    ∧ has_model_changed (some (save_config cur d t)) cur = false
    ∧ (has_model_changed (some (save_config cur d t))
        { provider := cur.provider, model := m } = true ↔ m ≠ cur.model)
    ∧ has_model_changed (some { s with dimension := some d' }) cur
        = has_model_changed (some s) cur := by
  refine ⟨rfl, ?_, ?_, ?_, ?_⟩
  · simp [has_model_changed]
  · simp [has_model_changed, save_config]
  · simp [has_model_changed, save_config]
    exact ne_comm
  · simp [has_model_changed]

/-! ## C7 — searching a missing collection (corrected) -/

/-- C7 counterexample: with no collection in the backing store, searching the
valid type `text` returns the propagated collection-not-found error, not the
empty list the claim promises. -/
theorem c7_missing_collection_cex :
    search_collection metric0 vsD { collections := [], next_id := 0 } "text" [1] 5 none
      = .error .collectionNotFound
    ∧ (Except.error QErr.collectionNotFound
        ≠ (.ok ([] : List ResultChunk) : Except QErr (List ResultChunk))) := by
  exact ⟨rfl, by simp⟩

/-- C7 amended: searching a valid content type whose collection does not
exist in the backing store propagates the client's collection-not-found
error (an exception), rather than returning an empty list. -/
theorem c7_missing_collection_raises (metric : List Score → List Score → Score)
    (vs : MultiCollectionVectorStore) (st : QdrantState) (ct name : String)
    (query_vector : List Score) (limit : Nat) (fd : Option (List (String × String)))
    (hct : (vs_collections vs).lookup ct = some name)
    (hmiss : st.collections.lookup name = none) :
    search_collection metric vs st ct query_vector limit fd
      = .error .collectionNotFound := by
  simp [search_collection, hct, qdrant_search, hmiss]

/-- C7 witness: the amended statement at a concrete input. -/
theorem c7_missing_collection_raises_witness :
    search_collection metric1 vsD { collections := [], next_id := 0 } "audio" [2] 7
      (some [("speaker", "x")]) = .error .collectionNotFound :=
  c7_missing_collection_raises metric1 vsD { collections := [], next_id := 0 }
    "audio" "ddm_rag_audio" [2] 7 (some [("speaker", "x")]) rfl rfl

/-! ## C8 — provider failure during blocking synthesis (corrected) -/

/-- C8 counterexample: when the generation provider raises, `synthesize`
returns the fixed apology string as an ordinary answer — and two different
provider errors produce the identical result, so no error (and no category)
reaches the caller. -/
theorem c8_provider_failure_swallowed_cex :
    synthesize llm_boom "q" "ctx" {} = { answer := generation_error_answer, gen_calls := 1 }
    ∧ synthesize llm_rate "q" "ctx" {} = synthesize llm_boom "q" "ctx" {} := by
  exact ⟨rfl, rfl⟩

/-- C8 amended: on any provider failure, `synthesize` catches the exception
and returns the fixed apology string as the answer of its single generation
attempt; no error propagates and no retry happens. -/
theorem c8_provider_failure_returns_apology (llm : LLM) (question context : String)
    (config : RAGConfig) (e : String)
    (h : llm (build_prompt question context) config.temperature config.max_tokens
          = .error e) :
    synthesize llm question context config
      = { answer := generation_error_answer, gen_calls := 1 } := by
  unfold synthesize
  rw [h]

/-- C8 witness: the amended statement at a concrete input. -/
theorem c8_provider_failure_returns_apology_witness :
    synthesize llm_rate "who" "nothing" {}
      = { answer := generation_error_answer, gen_calls := 1 } :=
  c8_provider_failure_returns_apology llm_rate "who" "nothing" {} "rate limited" rfl

/-! ## C9 — empty id / empty text records (corrected) -/

/-- C9 counterexample: a chunk with no id, no header and no content yields a
document with empty id and empty text — it is not skipped, and ingesting it
into the text collection succeeds and stores one point. -/
theorem c9_empty_record_ingested_cex :
    prepare_documents_for_vectordb [{}] "text"
      = [{ id := "", text := "",
           metadata := [("chunk_type", "text"), ("source_type", "text")] }]
    ∧ (prepare_documents_for_vectordb [{}] "text").length ≠ 0
    ∧ (add_documents vsD stT "text" (prepare_documents_for_vectordb [{}] "text")
        [[1]] 100).1 = .ok ()
    ∧ point_count (add_documents vsD stT "text"
        (prepare_documents_for_vectordb [{}] "text") [[1]] 100).2 "ddm_rag_text" = 1 := by
  exact ⟨rfl, by decide, rfl, rfl⟩

/-- C9 amended: the normalizer boundary performs no validation — every input
chunk yields exactly one prepared document (missing fields defaulting to the
empty string), including a fully empty chunk. -/
theorem c9_prepare_never_skips (chunks : List RawChunk) (ct : String) :
    (prepare_documents_for_vectordb chunks ct).length = chunks.length
    ∧ prepare_documents_for_vectordb [{}] ct
        = [{ id := "", text := "", metadata := [("chunk_type", ct), ("source_type", ct)] }] := by
  constructor
  · simp [prepare_documents_for_vectordb]
  · rfl

/-! ## C10 — rejection of unknown collection types (confirmed) -/

/-- C10: every public store operation taking a collection type raises
`ValueError` on a type outside `{text, audio, event}` before contacting the
backing store, leaving the store state unchanged. -/
theorem c10_unknown_type_rejected (vs : MultiCollectionVectorStore) (st : QdrantState)
    (ct : String) (recreate : Bool) (documents : List Document)
    (embeddings : List (List Score)) (bs : Nat)
    (metric : List Score → List Score → Score) (query_vector : List Score) (limit : Nat)
    (fd : Option (List (String × String)))
    (h1 : ct ≠ "text") (h2 : ct ≠ "audio") (h3 : ct ≠ "event") :
    create_collection vs st ct recreate = (.error (unknown_type_error ct), st)
    ∧ add_documents vs st ct documents embeddings bs = (.error (unknown_type_error ct), st)
    ∧ search_collection metric vs st ct query_vector limit fd
        = .error (unknown_type_error ct)
    ∧ delete_collection vs st ct = (.error (unknown_type_error ct), st) := by
  have hl := vs_collections_lookup_none vs ct h1 h2 h3
  refine ⟨?_, ?_, ?_, ?_⟩ <;>
    simp [create_collection, add_documents, search_collection, delete_collection, hl]

/-- C10 witness: the rejection at the concrete unknown type `video`. -/
theorem c10_unknown_type_rejected_witness :
    create_collection vsD st3 "video" true = (.error (unknown_type_error "video"), st3)
    ∧ add_documents vsD st3 "video" [doc1] [[1]] 100
        = (.error (unknown_type_error "video"), st3)
    ∧ search_collection metric0 vsD st3 "video" [1] 5 none
        = .error (unknown_type_error "video")
    ∧ delete_collection vsD st3 "video" = (.error (unknown_type_error "video"), st3) :=
  c10_unknown_type_rejected vsD st3 "video" true [doc1] [[1]] 100 metric0 [1] 5 none
    (by decide) (by decide) (by decide)

/-! ## C1 — zero-source short-circuit (corrected) -/

/-- C1 counterexample: with all three collections empty, retrieval yields
zero sources, yet `query` still makes one generation call and returns the
generation output (here `"hello"`), not a fixed fallback string. -/
theorem c1_zero_sources_still_generates_cex :
    query metric0 embed1 llm_hello vsD st3 "q" {}
      = .ok { answer := "hello", chunks_text := 0, chunks_audio := 0, chunks_event := 0,
              sources := some [], gen_calls := 1 }
    ∧ (1 : Nat) ≠ 0 := by
  exact ⟨rfl, by decide⟩

/-- C1 amended: whenever `query` returns a response the generation provider
was invoked exactly once — there is no zero-source short-circuit and no
fixed fallback answer in the multi-collection pipeline. -/
theorem c1_query_always_one_generation_call (metric : List Score → List Score → Score)
    (embed : Embedder) (llm : LLM) (vs : MultiCollectionVectorStore) (st : QdrantState)
    (question : String) (config : RAGConfig) (resp : QueryResponse)
    (h : query metric embed llm vs st question config = .ok resp) :
    resp.gen_calls = 1 := by
  unfold query at h
  cases hr : retrieve metric embed vs st question config with
  | error e =>
    rw [hr] at h
    exact absurd h (by simp)
  | ok results =>
    rw [hr] at h
    simp only [Except.ok.injEq] at h
    subst h
    exact synthesize_gen_calls llm question (format_context results) config

/-- C1 witness: the amended statement at a concrete input. -/
theorem c1_query_always_one_generation_call_witness :
    ({ answer := "hello", chunks_text := 0, chunks_audio := 0, chunks_event := 0,
       sources := some [], gen_calls := 1 } : QueryResponse).gen_calls = 1 :=
  c1_query_always_one_generation_call metric0 embed1 llm_hello vsD st3 "q2" {}
    { answer := "hello", chunks_text := 0, chunks_audio := 0, chunks_event := 0,
      sources := some [], gen_calls := 1 } rfl

/-! ## C2 — similarity threshold (corrected) -/

/-- C2 counterexample: with the default threshold `3/10`, the pipeline
retrieval path (`retrieve` / `multi_collection_search`) returns a source
with score `0` — the threshold is never applied on this path. -/
theorem c2_threshold_ignored_in_pipeline_cex :
    (retrieve metric0 embed1 vsD stC2 "q" {}).map format_sources
      = .ok [{ type := "text", content := "t", score := 0,
               metadata := [("collection_type", "text"), ("source_type", "text")] }]
    ∧ ((0 : Score) < ({} : RAGConfig).similarity_threshold) := by
  refine ⟨rfl, ?_⟩
  show (0 : ℚ) < 3/10
  norm_num

/-- C2 amended: only `combined_search` filters by the similarity threshold,
and only when the threshold is positive; in that case every returned chunk
scores at least the threshold.  The pipeline path applies no filter. -/
theorem c2_combined_search_threshold (metric : List Score → List Score → Score)
    (vs : MultiCollectionVectorStore) (st : QdrantState) (query_vector : List Score)
    (search_config : SearchConfig) (fd : Option (List (String × String)))
    (out : List ResultChunk)
    (hpos : 0 < search_config.similarity_threshold)
    (h : combined_search metric vs st query_vector search_config fd = .ok out) :
    all_scores_ge search_config.similarity_threshold out := by
  unfold combined_search at h
  cases hm : multi_collection_search metric vs st query_vector search_config fd with
  | error e =>
    rw [hm] at h
    exact absurd h (by simp)
  | ok m =>
    rw [hm] at h
    simp only [Except.ok.injEq, gt_iff_lt, hpos, if_true] at h
    subst h
    intro r hr
    have hmem := List.mem_filter.mp hr
    exact of_decide_eq_true hmem.2

/-- C2 witness: the amended statement at a concrete input. -/
theorem c2_combined_search_threshold_witness :
    all_scores_ge 1
      [{ id := "d1", score := 1, collection_type := "text", text := "t",
         metadata := [("collection_type", "text")], flat := [("collection_type", "text")] }] :=
  c2_combined_search_threshold metric1 vsD stC2 [1]
    { similarity_threshold := 1 } none
    [{ id := "d1", score := 1, collection_type := "text", text := "t",
       metadata := [("collection_type", "text")], flat := [("collection_type", "text")] }]
    (by norm_num) rfl

/-! ## C3 — upsert idempotency by record id (corrected) -/

/-- C3 counterexample: adding the same record (same `doc.id`) twice stores
two points — the point count grows, because every `add_documents` call
assigns fresh `uuid4` point ids. -/
theorem c3_reupsert_not_idempotent_cex :
    point_count (add_documents vsD stT "text" [doc1] [[1]] 100).2 "ddm_rag_text" = 1
    ∧ point_count (add_documents vsD
        (add_documents vsD stT "text" [doc1] [[1]] 100).2 "text" [doc1] [[1]] 100).2
        "ddm_rag_text" = 2
    ∧ (2 : Nat) ≠ 1 := by
  exact ⟨rfl, rfl, by decide⟩

/-- Helper: upserting a point whose id is fresh appends it. -/
theorem upsert_point_fresh (ps : List Point) (p : Point)
    (h : ∀ q ∈ ps, q.point_id ≠ p.point_id) :
    qdrant_upsert_point ps p = ps ++ [p] := by
  unfold qdrant_upsert_point
  rw [if_neg]
  simp only [List.any_eq_true, beq_iff_eq, not_exists]
  intro q
  rintro ⟨hq, he⟩
  exact h q hq he

/-- Helper: `build_points` produces one point per document pair. -/
theorem build_points_length (ct : String) :
    ∀ (pairs : List (Document × List Score)) (n : Nat),
      (build_points n ct pairs).length = pairs.length
  | [], _ => rfl
  | _ :: tl, n => by
    simp only [build_points, List.length_cons]
    rw [build_points_length ct tl (n + 1)]

/-- Helper: folding freshly-numbered points into a collection whose existing
point ids are all below the numbering start appends every point. -/
theorem foldl_upsert_fresh_length (ct : String) :
    ∀ (pairs : List (Document × List Score)) (n : Nat) (ps : List Point),
      (∀ q ∈ ps, q.point_id < n) →
      (List.foldl qdrant_upsert_point ps (build_points n ct pairs)).length
        = ps.length + pairs.length := by
  intro pairs
  induction pairs with
  | nil =>
    intro n ps _
    simp [build_points]
  | cons hd tl ih =>
    intro n ps hps
    simp only [build_points, List.foldl_cons, List.length_cons]
    rw [upsert_point_fresh ps _ (fun q hq => Nat.ne_of_lt (hps q hq))]
    rw [ih (n + 1) _ ?_]
    · simp only [List.length_append, List.length_singleton]
      omega
    · intro q hq
      rcases List.mem_append.mp hq with hmem | hmem
      · exact Nat.lt_succ_of_lt (hps q hmem)
      · simp only [List.mem_singleton] at hmem
        subst hmem
        exact Nat.lt_succ_self n

/-- Helper: looking up the updated collection after `upsert_into`. -/
theorem lookup_upsert_into (cols : List (String × Collection)) (name : String)
    (pts : List Point) (col : Collection) (h : cols.lookup name = some col) :
    (upsert_into cols name pts).lookup name
      = some { col with points := List.foldl qdrant_upsert_point col.points pts } := by
  induction cols with
  | nil => cases h
  | cons hd tl ih =>
    obtain ⟨k, v⟩ := hd
    by_cases hk : k = name
    · subst hk
      simp only [List.lookup, beq_self_eq_true] at h
      simp only [Option.some.injEq] at h
      subst h
      simp only [upsert_into, List.map_cons]
      simp [List.lookup]
    · have hk2 : (name == k) = false := beq_eq_false_iff_ne.mpr (fun e => hk e.symm)
      simp only [List.lookup, hk2] at h
      simp only [upsert_into, List.map_cons] at ih ⊢
      rw [if_neg hk]
      simp only [List.lookup, hk2]
      exact ih h

/-- Helper: `qdrant_upsert` on an existing collection folds the new points
into that collection in place. -/
theorem qdrant_upsert_eq (st : QdrantState) (name : String) (pts : List Point)
    (col : Collection) (h : st.collections.lookup name = some col) :
    qdrant_upsert st name pts
      = .ok { st with collections := upsert_into st.collections name pts } := by
  unfold qdrant_upsert
  rw [h]

/-- C3 amended: `add_documents` is never idempotent — every successful call
assigns fresh point ids (`uuid4`) to all documents and appends them, so the
point count grows by the number of documents, also when the same record id
was stored before. -/
theorem c3_add_documents_appends_fresh_points (vs : MultiCollectionVectorStore)
    (st : QdrantState) (ct name : String) (documents : List Document)
    (embeddings : List (List Score)) (bs : Nat) (col : Collection)
    (hct : (vs_collections vs).lookup ct = some name)
    (hlen : documents.length = embeddings.length)
    (hcol : st.collections.lookup name = some col)
    (hfresh : ∀ p ∈ col.points, p.point_id < st.next_id) :
    (add_documents vs st ct documents embeddings bs).1 = .ok ()
    ∧ point_count (add_documents vs st ct documents embeddings bs).2 name
        = col.points.length + documents.length := by
  have hmain : add_documents vs st ct documents embeddings bs
      = (.ok (), { st with
          next_id := st.next_id
            + (build_points st.next_id ct (documents.zip embeddings)).length,
          collections := upsert_into st.collections name
            (build_points st.next_id ct (documents.zip embeddings)) }) := by
    unfold add_documents
    simp only [hct]
    rw [if_neg (by simp [hlen])]
    rw [qdrant_upsert_eq
      { st with next_id := st.next_id
          + (build_points st.next_id ct (documents.zip embeddings)).length }
      name (build_points st.next_id ct (documents.zip embeddings)) col hcol]
  constructor
  · rw [hmain]
  · rw [hmain]
    have hlu := lookup_upsert_into st.collections name
      (build_points st.next_id ct (documents.zip embeddings)) col hcol
    simp only [point_count, hlu, Option.map_some', Option.getD_some]
    rw [foldl_upsert_fresh_length ct (documents.zip embeddings) st.next_id col.points hfresh]
    rw [List.length_zip, hlen, Nat.min_self]

/-- C3 witness: the amended statement at a concrete input. -/
theorem c3_add_documents_appends_fresh_points_witness :
    (add_documents vsD stT "text" [doc1] [[1]] 100).1 = .ok ()
    ∧ point_count (add_documents vsD stT "text" [doc1] [[1]] 100).2 "ddm_rag_text"
        = 0 + 1 :=
  c3_add_documents_appends_fresh_points vsD stT "text" "ddm_rag_text" [doc1] [[1]] 100
    { dim := 1, points := [] } rfl rfl rfl (by decide)

/-! ## C5 — streaming event grammar (corrected) -/

/-- C5 counterexample: when the generation provider fails, the stream is
`start, sources, error, complete` — the error fragment is not terminal, a
`complete` event follows it. -/
theorem c5_error_not_terminal_cex :
    query_stream metric0 embed1 llm_boom vsD st3 "q" {}
      = .ok [.start, .sources [] 0 0 0, .error "boom", .complete]
    ∧ [StreamEvent.start, .sources [] 0 0 0, .error "boom", .complete].getLast?
        = some StreamEvent.complete
    ∧ StreamEvent.error "boom"
        ∈ [StreamEvent.start, .sources [] 0 0 0, .error "boom", .complete].dropLast := by
  exact ⟨rfl, rfl, by decide⟩

/-- C5 amended: the streaming grammar is
`start, sources, answer-fragment*, error?, complete` — a final `complete`
event is always emitted, also after a mid-stream provider failure, where the
events are exactly `start, sources, error, complete` (nothing delivered is
retracted, and the error event is followed by the terminal `complete`). -/
theorem c5_failure_emits_error_then_complete (metric : List Score → List Score → Score)
    (embed : Embedder) (llm : LLM) (vs : MultiCollectionVectorStore) (st : QdrantState)
    (question : String) (config : RAGConfig) (results : MultiResults) (e : String)
    (hr : retrieve metric embed vs st question config = .ok results)
    (he : llm (build_prompt question (format_context results)) config.temperature
            config.max_tokens = .error e) :
    query_stream metric embed llm vs st question config
      = .ok [StreamEvent.start,
             StreamEvent.sources (format_sources results) (results.text.getD []).length
               (results.audio.getD []).length (results.event.getD []).length,
             StreamEvent.error e, StreamEvent.complete] := by
  unfold query_stream
  rw [hr]
  simp [he]

/-- C5 witness: the amended statement at a concrete input. -/
theorem c5_failure_emits_error_then_complete_witness :
    query_stream metric0 embed1 llm_rate vsD st3 "w" {}
      = .ok [StreamEvent.start, StreamEvent.sources [] 0 0 0,
             StreamEvent.error "rate limited", StreamEvent.complete] :=
  c5_failure_emits_error_then_complete metric0 embed1 llm_rate vsD st3 "w" {}
    { text := some [], audio := some [], event := some [] } "rate limited" rfl rfl

/-! ## C6 — global sort with deterministic type tie-break (confirmed) -/

/-- Membership in a stable descending insertion is membership in the inputs. -/
theorem mem_insert_desc (key : α → ℚ) (a x : α) (l : List α) :
    x ∈ insert_desc key a l ↔ x = a ∨ x ∈ l := by
  induction l with
  | nil => simp [insert_desc]
  | cons b t ih =>
    unfold insert_desc
    by_cases h : key a < key b
    · rw [if_pos h]
      simp only [List.mem_cons, ih]
      tauto
    · rw [if_neg h]
      simp [List.mem_cons]

/-- Inserting an element whose tie-rank is at most every rank of an already
key-and-rank ordered list preserves the ordering: keys non-increasing, equal
keys in non-decreasing rank order. -/
theorem insert_desc_pairwise (key : α → ℚ) (ρ : α → Nat) (a : α) (l : List α)
    (hl : l.Pairwise (fun x y => key y ≤ key x ∧ (key x = key y → ρ x ≤ ρ y)))
    (ha : ∀ b ∈ l, ρ a ≤ ρ b) :
    (insert_desc key a l).Pairwise
      (fun x y => key y ≤ key x ∧ (key x = key y → ρ x ≤ ρ y)) := by
  induction l with
  | nil => simp [insert_desc]
  | cons b t ih =>
    rw [List.pairwise_cons] at hl
    obtain ⟨hbt, htp⟩ := hl
    unfold insert_desc
    by_cases h : key a < key b
    · rw [if_pos h]
      rw [List.pairwise_cons]
      constructor
      · intro x hx
        rcases (mem_insert_desc key a x t).mp hx with rfl | hx2
        · exact ⟨le_of_lt h, fun he => absurd he (ne_of_gt h)⟩
        · exact hbt x hx2
      · exact ih htp (fun x hx => ha x (List.mem_cons_of_mem b hx))
    · rw [if_neg h]
      have hba : key b ≤ key a := le_of_not_lt h
      rw [List.pairwise_cons]
      constructor
      · intro x hx
        rcases List.mem_cons.mp hx with rfl | hx2
        · exact ⟨hba, fun _ => ha x (List.mem_cons_self x t)⟩
        · have hbx := hbt x hx2
          exact ⟨le_trans hbx.1 hba, fun _ => ha x (List.mem_cons_of_mem b hx2)⟩
      · exact List.pairwise_cons.mpr ⟨hbt, htp⟩

/-- Membership in the stable descending sort is membership in the input. -/
theorem mem_py_sort_desc (key : α → ℚ) (x : α) (l : List α) :
    x ∈ py_sort_desc_by key l ↔ x ∈ l := by
  induction l with
  | nil => simp [py_sort_desc_by]
  | cons a t ih =>
    show x ∈ insert_desc key a (py_sort_desc_by key t) ↔ _
    rw [mem_insert_desc]
    simp [ih, List.mem_cons]

/-- Stability and sortedness of the stable descending sort: when the input
is ordered by non-decreasing tie-rank, the output has non-increasing keys and
resolves equal keys by the input rank order. -/
theorem py_sort_desc_pairwise (key : α → ℚ) (ρ : α → Nat) (l : List α)
    (h : l.Pairwise (fun x y => ρ x ≤ ρ y)) :
    (py_sort_desc_by key l).Pairwise
      (fun x y => key y ≤ key x ∧ (key x = key y → ρ x ≤ ρ y)) := by
  induction l with
  | nil => simp [py_sort_desc_by]
  | cons a t ih =>
    rw [List.pairwise_cons] at h
    obtain ⟨hat, htp⟩ := h
    show (insert_desc key a (py_sort_desc_by key t)).Pairwise _
    apply insert_desc_pairwise
    · exact ih htp
    · intro b hb
      exact hat b ((mem_py_sort_desc key b t).mp hb)

/-- A list of elements of one constant tie-rank is rank-ordered. -/
theorem pairwise_rank_of_const (ρ : α → Nat) (k : Nat) (l : List α)
    (h : ∀ x ∈ l, ρ x = k) :
    l.Pairwise (fun x y => ρ x ≤ ρ y) := by
  induction l with
  | nil => exact List.Pairwise.nil
  | cons a t ih =>
    rw [List.pairwise_cons]
    refine ⟨fun x hx => ?_, ih (fun x hx => h x (List.mem_cons_of_mem a hx))⟩
    rw [h a (List.mem_cons_self a t), h x (List.mem_cons_of_mem a hx)]

/-- Every chunk `search_collection` returns is tagged with the searched
collection type. -/
theorem search_collection_types (metric : List Score → List Score → Score)
    (vs : MultiCollectionVectorStore) (st : QdrantState) (ct : String)
    (qv : List Score) (lim : Nat) (fd : Option (List (String × String)))
    (l : List ResultChunk)
    (h : search_collection metric vs st ct qv lim fd = .ok l) :
    ∀ c ∈ l, c.collection_type = ct := by
  unfold search_collection at h
  cases hct : (vs_collections vs).lookup ct with
  | none =>
    simp only [hct] at h
    exact absurd h (by simp)
  | some name =>
    simp only [hct] at h
    cases hq : qdrant_search metric st name qv lim (normalize_filter fd) with
    | error e =>
      rw [hq] at h
      exact absurd h (by simp)
    | ok hits =>
      rw [hq] at h
      simp only [Except.ok.injEq] at h
      subst h
      intro c hc
      obtain ⟨hh, _, rfl⟩ := List.mem_map.mp hc
      rfl

/-- Every chunk a `search_if` block returns is tagged with its type. -/
theorem search_if_types (metric : List Score → List Score → Score)
    (vs : MultiCollectionVectorStore) (st : QdrantState) (ct : String)
    (qv : List Score) (lim : Nat) (fd : Option (List (String × String)))
    (o : Option (List ResultChunk))
    (h : search_if metric vs st ct qv lim fd = .ok o) :
    ∀ c ∈ o.getD [], c.collection_type = ct := by
  unfold search_if at h
  by_cases hl : lim > 0
  · rw [if_pos hl] at h
    cases hs : search_collection metric vs st ct qv lim fd with
    | error e =>
      rw [hs] at h
      exact absurd h (by simp [Except.map])
    | ok l =>
      rw [hs] at h
      simp only [Except.map, Except.ok.injEq] at h
      subst h
      simpa using search_collection_types metric vs st ct qv lim fd l hs
  · rw [if_neg hl] at h
    simp only [Except.ok.injEq] at h
    subst h
    simp

/-- Every chunk of a `multi_collection_search` result dict carries the
collection type of the per-type search that produced it. -/
theorem multi_collection_search_types (metric : List Score → List Score → Score)
    (vs : MultiCollectionVectorStore) (st : QdrantState) (qv : List Score)
    (cfg : SearchConfig) (fd : Option (List (String × String))) (m : MultiResults)
    (h : multi_collection_search metric vs st qv cfg fd = .ok m) :
    (∀ c ∈ m.text.getD [], c.collection_type = "text")
    ∧ (∀ c ∈ m.audio.getD [], c.collection_type = "audio")
    ∧ (∀ c ∈ m.event.getD [], c.collection_type = "event") := by
  unfold multi_collection_search at h
  cases h1 : search_if metric vs st "text" qv cfg.text_limit fd with
  | error e =>
    rw [h1] at h
    exact absurd h (by simp)
  | ok t =>
    rw [h1] at h
    cases h2 : search_if metric vs st "audio" qv cfg.audio_limit fd with
    | error e =>
      rw [h2] at h
      exact absurd h (by simp)
    | ok a =>
      rw [h2] at h
      cases h3 : search_if metric vs st "event" qv cfg.event_limit fd with
      | error e =>
        rw [h3] at h
        exact absurd h (by simp)
      | ok ev =>
        rw [h3] at h
        simp only [Except.ok.injEq] at h
        subst h
        exact ⟨search_if_types metric vs st "text" qv cfg.text_limit fd t h1,
               search_if_types metric vs st "audio" qv cfg.audio_limit fd a h2,
               search_if_types metric vs st "event" qv cfg.event_limit fd ev h3⟩

/-- C6: the merged source list of `format_sources` and the combined result
list of `combined_search` are single globally sorted lists: scores
non-increasing, and entries with equal scores appear in the fixed
content-type enumeration order text, audio, event. -/
theorem c6_global_sort_with_type_tiebreak (r : MultiResults)
    (metric : List Score → List Score → Score) (vs : MultiCollectionVectorStore)
    (st : QdrantState) (query_vector : List Score) (search_config : SearchConfig)
    (fd : Option (List (String × String))) (out : List ResultChunk)
    (h : combined_search metric vs st query_vector search_config fd = .ok out) :
    source_order (format_sources r) ∧ chunk_order out := by
  constructor
  · have ht : ∀ x ∈ (r.text.getD []).map text_source, type_rank x.type = 0 := by
      intro x hx
      obtain ⟨c, _, rfl⟩ := List.mem_map.mp hx
      rfl
    have ha : ∀ x ∈ (r.audio.getD []).map audio_source, type_rank x.type = 1 := by
      intro x hx
      obtain ⟨c, _, rfl⟩ := List.mem_map.mp hx
      rfl
    have he : ∀ x ∈ (r.event.getD []).map event_source, type_rank x.type = 2 := by
      intro x hx
      obtain ⟨c, _, rfl⟩ := List.mem_map.mp hx
      rfl
    have hpre : ((r.text.getD []).map text_source ++ (r.audio.getD []).map audio_source
        ++ (r.event.getD []).map event_source).Pairwise
        (fun x y => type_rank x.type ≤ type_rank y.type) := by
      apply List.pairwise_append.mpr
      refine ⟨List.pairwise_append.mpr ⟨?_, ?_, ?_⟩, ?_, ?_⟩
      · exact pairwise_rank_of_const _ 0 _ ht
      · exact pairwise_rank_of_const _ 1 _ ha
      · intro x hx y hy
        rw [ht x hx, ha y hy]
        omega
      · exact pairwise_rank_of_const _ 2 _ he
      · intro x hx y hy
        rcases List.mem_append.mp hx with h1 | h1
        · rw [ht x h1, he y hy]
          omega
        · rw [ha x h1, he y hy]
          omega
    exact py_sort_desc_pairwise (fun s : SourceEntry => s.score) (fun s : SourceEntry => type_rank s.type) _ hpre
  · unfold combined_search at h
    cases hm : multi_collection_search metric vs st query_vector search_config fd with
    | error e =>
      rw [hm] at h
      exact absurd h (by simp)
    | ok m =>
      simp only [hm] at h
      obtain ⟨ht2, ha2, he2⟩ :=
        multi_collection_search_types metric vs st query_vector search_config fd m hm
      have hpre2 : (m.text.getD [] ++ m.audio.getD [] ++ m.event.getD []).Pairwise
          (fun x y => type_rank x.collection_type ≤ type_rank y.collection_type) := by
        apply List.pairwise_append.mpr
        refine ⟨List.pairwise_append.mpr ⟨?_, ?_, ?_⟩, ?_, ?_⟩
        · refine pairwise_rank_of_const _ 0 _ (fun x hx => ?_)
          rw [ht2 x hx]
          rfl
        · refine pairwise_rank_of_const _ 1 _ (fun x hx => ?_)
          rw [ha2 x hx]
          rfl
        · intro x hx y hy
          rw [ht2 x hx, ha2 y hy]
          decide
        · refine pairwise_rank_of_const _ 2 _ (fun x hx => ?_)
          rw [he2 x hx]
          rfl
        · intro x hx y hy
          rcases List.mem_append.mp hx with h1 | h1
          · rw [ht2 x h1, he2 y hy]
            decide
          · rw [ha2 x h1, he2 y hy]
            decide
      have hsorted := py_sort_desc_pairwise (fun c : ResultChunk => c.score)
        (fun c : ResultChunk => type_rank c.collection_type) _ hpre2
      unfold chunk_order
      by_cases hth : search_config.similarity_threshold > 0
      · rw [if_pos hth] at h
        simp only [Except.ok.injEq] at h
        subst h
        exact List.Pairwise.filter _ hsorted
      · rw [if_neg hth] at h
        simp only [Except.ok.injEq] at h
        subst h
        exact hsorted

/-- C6 witness: the tie-break at a concrete input — a text chunk and an
audio chunk with identical scores keep the text-before-audio order, and
`combined_search` on the concrete store is ordered. -/
theorem c6_global_sort_with_type_tiebreak_witness :
    source_order (format_sources rC6)
    ∧ chunk_order
        [{ id := "d1", score := 1, collection_type := "text", text := "t",
           metadata := [("collection_type", "text")],
           flat := [("collection_type", "text")] }] :=
  c6_global_sort_with_type_tiebreak rC6 metric1 vsD stC2 [1] {} none
    [{ id := "d1", score := 1, collection_type := "text", text := "t",
       metadata := [("collection_type", "text")], flat := [("collection_type", "text")] }]
    (by rfl)

end RagV2
